import Mathlib

/-!
Shallow embedding of the `raw-window-handle` crate (`src/lib.rs`).

The crate is a pure data contract: per-platform handle payload structs, a
tagged union `RawWindowHandle` over them, and a wrapper `TrustedWindowHandle`
whose constructor asserts trust in a raw handle value and whose accessor
`raw_window_handle` returns the wrapped value.

Platform-native scalar fields (opaque integer handles, raw addresses) are
modelled as `Nat`, with `0` as the null/zero sentinel. The payload structs
live in platform modules that are not part of the provided source tree; their
field sets are modelled from the specification (a primary window/surface
handle plus, where the platform requires it, a secondary display/connection
or view identifier), as noted on each definition.
-/

/-- Modelled from the spec: payload struct of the `ios` module (missing from
the source tree): a primary window handle plus a secondary view identifier,
platform-native scalars modelled as `Nat`. -/
structure IOSHandle where
  ui_window : Nat
  ui_view : Nat
deriving DecidableEq

/-- Modelled from the spec: payload struct of the `macos` module (missing from
the source tree): a primary window handle plus a secondary view identifier. -/
structure MacOSHandle where
  ns_window : Nat
  ns_view : Nat
deriving DecidableEq

/-- Modelled from the spec: payload struct of the `redox` module (missing from
the source tree): a single window handle. -/
structure RedoxHandle where
  window : Nat
deriving DecidableEq

/-- Modelled from the spec: Xlib payload struct of the `unix` module (missing
from the source tree): a window handle alongside a display connection handle. -/
structure XlibHandle where
  window : Nat
  display : Nat
deriving DecidableEq

/-- Modelled from the spec: Xcb payload struct of the `unix` module (missing
from the source tree): a window handle alongside a connection handle. -/
structure XcbHandle where
  window : Nat
  connection : Nat
deriving DecidableEq

/-- Modelled from the spec: Wayland payload struct of the `unix` module
(missing from the source tree): a surface handle alongside a display handle. -/
structure WaylandHandle where
  surface : Nat
  display : Nat
deriving DecidableEq

/-- Modelled from the spec: payload struct of the `windows` module (missing
from the source tree): a window handle alongside an instance handle. -/
structure WindowsHandle where
  hwnd : Nat
  hinstance : Nat
deriving DecidableEq

/-- Modelled from the spec: WinRT payload struct of the `windows` module
(missing from the source tree): a single core-window handle. -/
structure WinRTHandle where
  core_window : Nat
deriving DecidableEq

/-- Modelled from the spec: payload struct of the `web` module (missing from
the source tree): a single canvas identifier. -/
structure WebHandle where
  id : Nat
deriving DecidableEq

/-- Modelled from the spec: payload struct of the `android` module (missing
from the source tree): a single native-window handle. -/
structure AndroidHandle where
  a_native_window : Nat
deriving DecidableEq

/-- The tagged union over all platform payload variants
(`enum RawWindowHandle`, `src/lib.rs:103-203`). In the source every variant is
gated by a target-platform `cfg`; the embedding includes all of them. -/
inductive RawWindowHandle where
  | IOS (payload : IOSHandle)
  | MacOS (payload : MacOSHandle)
  | Redox (payload : RedoxHandle)
  | Xlib (payload : XlibHandle)
  | Xcb (payload : XcbHandle)
  | Wayland (payload : WaylandHandle)
  | Windows (payload : WindowsHandle)
  | WinRT (payload : WinRTHandle)
  | Web (payload : WebHandle)
  | Android (payload : AndroidHandle)
deriving DecidableEq

/-- Field-wise Boolean equality of `IOSHandle`, following the semantics of the
derived `PartialEq` on the payload structs. -/
def IOSHandle.beq (a b : IOSHandle) : Bool :=
  a.ui_window == b.ui_window && a.ui_view == b.ui_view

/-- Field-wise Boolean equality of `MacOSHandle` (derived `PartialEq`). -/
def MacOSHandle.beq (a b : MacOSHandle) : Bool :=
  a.ns_window == b.ns_window && a.ns_view == b.ns_view

/-- Field-wise Boolean equality of `RedoxHandle` (derived `PartialEq`). -/
def RedoxHandle.beq (a b : RedoxHandle) : Bool :=
  a.window == b.window

/-- Field-wise Boolean equality of `XlibHandle` (derived `PartialEq`). -/
def XlibHandle.beq (a b : XlibHandle) : Bool :=
  a.window == b.window && a.display == b.display

/-- Field-wise Boolean equality of `XcbHandle` (derived `PartialEq`). -/
def XcbHandle.beq (a b : XcbHandle) : Bool :=
  a.window == b.window && a.connection == b.connection

/-- Field-wise Boolean equality of `WaylandHandle` (derived `PartialEq`). -/
def WaylandHandle.beq (a b : WaylandHandle) : Bool :=
  a.surface == b.surface && a.display == b.display

/-- Field-wise Boolean equality of `WindowsHandle` (derived `PartialEq`). -/
def WindowsHandle.beq (a b : WindowsHandle) : Bool :=
  a.hwnd == b.hwnd && a.hinstance == b.hinstance

/-- Field-wise Boolean equality of `WinRTHandle` (derived `PartialEq`). -/
def WinRTHandle.beq (a b : WinRTHandle) : Bool :=
  a.core_window == b.core_window

/-- Field-wise Boolean equality of `WebHandle` (derived `PartialEq`). -/
def WebHandle.beq (a b : WebHandle) : Bool :=
  a.id == b.id

/-- Field-wise Boolean equality of `AndroidHandle` (derived `PartialEq`). -/
def AndroidHandle.beq (a b : AndroidHandle) : Bool :=
  a.a_native_window == b.a_native_window

/-- Boolean equality of the union, following the semantics of
`derive(PartialEq, Eq)` on `RawWindowHandle` (`src/lib.rs:104`): equal variant
tags and field-wise equal payloads; differing tags compare unequal. -/
def RawWindowHandle.beq : RawWindowHandle → RawWindowHandle → Bool
  | .IOS a, .IOS b => IOSHandle.beq a b
  | .MacOS a, .MacOS b => MacOSHandle.beq a b
  | .Redox a, .Redox b => RedoxHandle.beq a b
  | .Xlib a, .Xlib b => XlibHandle.beq a b
  | .Xcb a, .Xcb b => XcbHandle.beq a b
  | .Wayland a, .Wayland b => WaylandHandle.beq a b
  | .Windows a, .Windows b => WindowsHandle.beq a b
  | .WinRT a, .WinRT b => WinRTHandle.beq a b
  | .Web a, .Web b => WebHandle.beq a b
  | .Android a, .Android b => AndroidHandle.beq a b
  | _, _ => false

/-- The propositional reading of structural equality on the union: same
variant tag and every payload field equal, spelled out field by field. -/
def sameVariantAndFields : RawWindowHandle → RawWindowHandle → Prop
  | .IOS a, .IOS b => a.ui_window = b.ui_window ∧ a.ui_view = b.ui_view
  | .MacOS a, .MacOS b => a.ns_window = b.ns_window ∧ a.ns_view = b.ns_view
  | .Redox a, .Redox b => a.window = b.window
  | .Xlib a, .Xlib b => a.window = b.window ∧ a.display = b.display
  | .Xcb a, .Xcb b => a.window = b.window ∧ a.connection = b.connection
  | .Wayland a, .Wayland b => a.surface = b.surface ∧ a.display = b.display
  | .Windows a, .Windows b => a.hwnd = b.hwnd ∧ a.hinstance = b.hinstance
  | .WinRT a, .WinRT b => a.core_window = b.core_window
  | .Web a, .Web b => a.id = b.id
  | .Android a, .Android b => a.a_native_window = b.a_native_window
  | _, _ => False

/-- Hash-stream mixing step, modelling a `Hasher` absorbing one scalar. -/
def hashCombine (h v : Nat) : Nat :=
  h * 31 + v

/-- Hash of an `IOSHandle` payload from seed `h`: each field is absorbed in
declaration order (semantics of the derived `Hash` on the payload structs). -/
def IOSHandle.hashFields (a : IOSHandle) (h : Nat) : Nat :=
  hashCombine (hashCombine h a.ui_window) a.ui_view

/-- Hash of a `MacOSHandle` payload from seed `h` (derived `Hash`). -/
def MacOSHandle.hashFields (a : MacOSHandle) (h : Nat) : Nat :=
  hashCombine (hashCombine h a.ns_window) a.ns_view

/-- Hash of a `RedoxHandle` payload from seed `h` (derived `Hash`). -/
def RedoxHandle.hashFields (a : RedoxHandle) (h : Nat) : Nat :=
  hashCombine h a.window

/-- Hash of an `XlibHandle` payload from seed `h` (derived `Hash`). -/
def XlibHandle.hashFields (a : XlibHandle) (h : Nat) : Nat :=
  hashCombine (hashCombine h a.window) a.display

/-- Hash of an `XcbHandle` payload from seed `h` (derived `Hash`). -/
def XcbHandle.hashFields (a : XcbHandle) (h : Nat) : Nat :=
  hashCombine (hashCombine h a.window) a.connection

/-- Hash of a `WaylandHandle` payload from seed `h` (derived `Hash`). -/
def WaylandHandle.hashFields (a : WaylandHandle) (h : Nat) : Nat :=
  hashCombine (hashCombine h a.surface) a.display

/-- Hash of a `WindowsHandle` payload from seed `h` (derived `Hash`). -/
def WindowsHandle.hashFields (a : WindowsHandle) (h : Nat) : Nat :=
  hashCombine (hashCombine h a.hwnd) a.hinstance

/-- Hash of a `WinRTHandle` payload from seed `h` (derived `Hash`). -/
def WinRTHandle.hashFields (a : WinRTHandle) (h : Nat) : Nat :=
  hashCombine h a.core_window

/-- Hash of a `WebHandle` payload from seed `h` (derived `Hash`). -/
def WebHandle.hashFields (a : WebHandle) (h : Nat) : Nat :=
  hashCombine h a.id

/-- Hash of an `AndroidHandle` payload from seed `h` (derived `Hash`). -/
def AndroidHandle.hashFields (a : AndroidHandle) (h : Nat) : Nat :=
  hashCombine h a.a_native_window

/-- Hash of the union, following the semantics of `derive(Hash)` on
`RawWindowHandle` (`src/lib.rs:104`): the variant discriminant is absorbed
first, then each payload field in declaration order. -/
def RawWindowHandle.hashValue : RawWindowHandle → Nat
  | .IOS a => a.hashFields (hashCombine 0 0)
  | .MacOS a => a.hashFields (hashCombine 0 1)
  | .Redox a => a.hashFields (hashCombine 0 2)
  | .Xlib a => a.hashFields (hashCombine 0 3)
  | .Xcb a => a.hashFields (hashCombine 0 4)
  | .Wayland a => a.hashFields (hashCombine 0 5)
  | .Windows a => a.hashFields (hashCombine 0 6)
  | .WinRT a => a.hashFields (hashCombine 0 7)
  | .Web a => a.hashFields (hashCombine 0 8)
  | .Android a => a.hashFields (hashCombine 0 9)

/-- Copy/clone of the union, following the semantics of
`derive(Clone, Copy)` on `RawWindowHandle` (`src/lib.rs:104`): the variant tag
is kept and every payload field is copied. -/
def RawWindowHandle.clone : RawWindowHandle → RawWindowHandle
  | .IOS a => .IOS { ui_window := a.ui_window, ui_view := a.ui_view }
  | .MacOS a => .MacOS { ns_window := a.ns_window, ns_view := a.ns_view }
  | .Redox a => .Redox { window := a.window }
  | .Xlib a => .Xlib { window := a.window, display := a.display }
  | .Xcb a => .Xcb { window := a.window, connection := a.connection }
  | .Wayland a => .Wayland { surface := a.surface, display := a.display }
  | .Windows a => .Windows { hwnd := a.hwnd, hinstance := a.hinstance }
  | .WinRT a => .WinRT { core_window := a.core_window }
  | .Web a => .Web { id := a.id }
  | .Android a => .Android { a_native_window := a.a_native_window }

/-- Modelled from the spec: the `empty` builder of `IOSHandle` (its module is
missing from the source tree): every field at the zero/null sentinel. -/
def IOSHandle.empty : IOSHandle :=
  { ui_window := 0, ui_view := 0 }

/-- Modelled from the spec: the `empty` builder of `MacOSHandle`. -/
def MacOSHandle.empty : MacOSHandle :=
  { ns_window := 0, ns_view := 0 }

/-- Modelled from the spec: the `empty` builder of `RedoxHandle`. -/
def RedoxHandle.empty : RedoxHandle :=
  { window := 0 }

/-- Modelled from the spec: the `empty` builder of `XlibHandle`. -/
def XlibHandle.empty : XlibHandle :=
  { window := 0, display := 0 }

/-- Modelled from the spec: the `empty` builder of `XcbHandle`. -/
def XcbHandle.empty : XcbHandle :=
  { window := 0, connection := 0 }

/-- Modelled from the spec: the `empty` builder of `WaylandHandle`. -/
def WaylandHandle.empty : WaylandHandle :=
  { surface := 0, display := 0 }

/-- Modelled from the spec: the `empty` builder of `WindowsHandle`. -/
def WindowsHandle.empty : WindowsHandle :=
  { hwnd := 0, hinstance := 0 }

/-- Modelled from the spec: the `empty` builder of `WinRTHandle`. -/
def WinRTHandle.empty : WinRTHandle :=
  { core_window := 0 }

/-- Modelled from the spec: the `empty` builder of `WebHandle`. -/
def WebHandle.empty : WebHandle :=
  { id := 0 }

/-- Modelled from the spec: the `empty` builder of `AndroidHandle`. -/
def AndroidHandle.empty : AndroidHandle :=
  { a_native_window := 0 }

/-- The trust-assertion wrapper (`struct TrustedWindowHandle`,
`src/lib.rs:214-216`): a single private field holding the wrapped
`RawWindowHandle` value. -/
structure TrustedWindowHandle where
  raw : RawWindowHandle
deriving DecidableEq

/-- The trust-assertion constructor (`TrustedWindowHandle::new`,
`src/lib.rs:223-225`): `Self { raw }` — it stores the argument with no check. -/
def TrustedWindowHandle.new (raw : RawWindowHandle) : TrustedWindowHandle :=
  { raw := raw }

/-- The accessor (`fn raw_window_handle(&self)` of the `HasRawWindowHandle`
impl, `src/lib.rs:228-230`): it returns `self.raw`. The receiver is taken by
shared reference, so the call also yields the (unchanged) post-state of the
wrapper; the embedding returns the pair (result, post-state). -/
def TrustedWindowHandle.raw_window_handle (self : TrustedWindowHandle) :
    RawWindowHandle × TrustedWindowHandle :=
  (self.raw, self)

/-! ## Helper lemmas -/

theorem ios_eq_iff (a b : IOSHandle) :
    a = b ↔ a.ui_window = b.ui_window ∧ a.ui_view = b.ui_view := by
  cases a; cases b; simp

theorem macos_eq_iff (a b : MacOSHandle) :
    a = b ↔ a.ns_window = b.ns_window ∧ a.ns_view = b.ns_view := by
  cases a; cases b; simp

theorem redox_eq_iff (a b : RedoxHandle) :
    a = b ↔ a.window = b.window := by
  cases a; cases b; simp

theorem xlib_eq_iff (a b : XlibHandle) :
    a = b ↔ a.window = b.window ∧ a.display = b.display := by
  cases a; cases b; simp

theorem xcb_eq_iff (a b : XcbHandle) :
    a = b ↔ a.window = b.window ∧ a.connection = b.connection := by
  cases a; cases b; simp

theorem wayland_eq_iff (a b : WaylandHandle) :
    a = b ↔ a.surface = b.surface ∧ a.display = b.display := by
  cases a; cases b; simp

theorem windows_eq_iff (a b : WindowsHandle) :
    a = b ↔ a.hwnd = b.hwnd ∧ a.hinstance = b.hinstance := by
  cases a; cases b; simp

theorem winrt_eq_iff (a b : WinRTHandle) :
    a = b ↔ a.core_window = b.core_window := by
  cases a; cases b; simp

theorem web_eq_iff (a b : WebHandle) :
    a = b ↔ a.id = b.id := by
  cases a; cases b; simp

theorem android_eq_iff (a b : AndroidHandle) :
    a = b ↔ a.a_native_window = b.a_native_window := by
  cases a; cases b; simp

theorem ios_beq_iff (a b : IOSHandle) : IOSHandle.beq a b = true ↔ a = b := by
  simp [IOSHandle.beq, ios_eq_iff]

theorem macos_beq_iff (a b : MacOSHandle) : MacOSHandle.beq a b = true ↔ a = b := by
  simp [MacOSHandle.beq, macos_eq_iff]

theorem redox_beq_iff (a b : RedoxHandle) : RedoxHandle.beq a b = true ↔ a = b := by
  simp [RedoxHandle.beq, redox_eq_iff]

theorem xlib_beq_iff (a b : XlibHandle) : XlibHandle.beq a b = true ↔ a = b := by
  simp [XlibHandle.beq, xlib_eq_iff]

theorem xcb_beq_iff (a b : XcbHandle) : XcbHandle.beq a b = true ↔ a = b := by
  simp [XcbHandle.beq, xcb_eq_iff]

theorem wayland_beq_iff (a b : WaylandHandle) : WaylandHandle.beq a b = true ↔ a = b := by
  simp [WaylandHandle.beq, wayland_eq_iff]

theorem windows_beq_iff (a b : WindowsHandle) : WindowsHandle.beq a b = true ↔ a = b := by
  simp [WindowsHandle.beq, windows_eq_iff]

theorem winrt_beq_iff (a b : WinRTHandle) : WinRTHandle.beq a b = true ↔ a = b := by
  simp [WinRTHandle.beq, winrt_eq_iff]

theorem web_beq_iff (a b : WebHandle) : WebHandle.beq a b = true ↔ a = b := by
  simp [WebHandle.beq, web_eq_iff]

theorem android_beq_iff (a b : AndroidHandle) : AndroidHandle.beq a b = true ↔ a = b := by
  simp [AndroidHandle.beq, android_eq_iff]

theorem RawWindowHandle.beq_eq_true_iff (x y : RawWindowHandle) :
    RawWindowHandle.beq x y = true ↔ x = y := by
  cases x <;> cases y <;>
    simp [RawWindowHandle.beq, ios_beq_iff, macos_beq_iff, redox_beq_iff,
      xlib_beq_iff, xcb_beq_iff, wayland_beq_iff, windows_beq_iff,
      winrt_beq_iff, web_beq_iff, android_beq_iff]

theorem sameVariantAndFields_iff (x y : RawWindowHandle) :
    sameVariantAndFields x y ↔ x = y := by
  cases x <;> cases y <;>
    simp [sameVariantAndFields, ios_eq_iff, macos_eq_iff, redox_eq_iff,
      xlib_eq_iff, xcb_eq_iff, wayland_eq_iff, windows_eq_iff,
      winrt_eq_iff, web_eq_iff, android_eq_iff]

/-! ## Claim theorems -/

/-- C1: round-trip identity of the trust assertion — for every
`RawWindowHandle` value `x`, constructing a `TrustedWindowHandle` from `x` via
the trusted constructor and then calling the accessor returns exactly `x`,
unmodified. -/
theorem trusted_round_trip (x : RawWindowHandle) :
    ((TrustedWindowHandle.new x).raw_window_handle).1 = x :=
  rfl

/-- C2: equality on the union (and its payloads) is structural — two values
compare equal exactly when they have the same variant tag and every payload
field is equal; this equality is reflexive, symmetric and transitive, and two
union values that do not agree on tag and all fields (in particular, payloads
differing in exactly one field) compare unequal. -/
theorem union_eq_structural :
    (∀ x y : RawWindowHandle, RawWindowHandle.beq x y = true ↔ sameVariantAndFields x y)
    ∧ (∀ x : RawWindowHandle, RawWindowHandle.beq x x = true)
    ∧ (∀ x y : RawWindowHandle,
        RawWindowHandle.beq x y = true → RawWindowHandle.beq y x = true)
    ∧ (∀ x y z : RawWindowHandle, RawWindowHandle.beq x y = true →
        RawWindowHandle.beq y z = true → RawWindowHandle.beq x z = true)
    ∧ (∀ x y : RawWindowHandle,
        ¬ sameVariantAndFields x y → RawWindowHandle.beq x y = false) := by
  refine ⟨?_, ?_, ?_, ?_, ?_⟩
  · intro x y
    rw [RawWindowHandle.beq_eq_true_iff, sameVariantAndFields_iff]
  · intro x
    exact (RawWindowHandle.beq_eq_true_iff x x).2 rfl
  · intro x y h
    exact (RawWindowHandle.beq_eq_true_iff y x).2
      ((RawWindowHandle.beq_eq_true_iff x y).1 h).symm
  · intro x y z hxy hyz
    exact (RawWindowHandle.beq_eq_true_iff x z).2
      (((RawWindowHandle.beq_eq_true_iff x y).1 hxy).trans
        ((RawWindowHandle.beq_eq_true_iff y z).1 hyz))
  · intro x y h
    cases hb : RawWindowHandle.beq x y
    · rfl
    · exact absurd ((sameVariantAndFields_iff x y).2
        ((RawWindowHandle.beq_eq_true_iff x y).1 hb)) h

/-- Witness for C2: two `Xlib` union values whose payloads differ in exactly
one field (the display) compare unequal. -/
theorem union_eq_structural_witness :
    RawWindowHandle.beq (.Xlib { window := 1, display := 2 })
      (.Xlib { window := 1, display := 3 }) = false :=
  union_eq_structural.2.2.2.2 _ _ (by simp [sameVariantAndFields])

/-- C3: hashing is consistent with equality — on the union and on every
payload type, values that compare equal hash identically (payload hashes are
taken from an arbitrary common seed, matching a hasher state). -/
theorem hash_consistent_with_eq :
    (∀ x y : RawWindowHandle, RawWindowHandle.beq x y = true →
      RawWindowHandle.hashValue x = RawWindowHandle.hashValue y)
    ∧ (∀ (s : Nat) (a b : IOSHandle),
        IOSHandle.beq a b = true → a.hashFields s = b.hashFields s)
    ∧ (∀ (s : Nat) (a b : MacOSHandle),
        MacOSHandle.beq a b = true → a.hashFields s = b.hashFields s)
    ∧ (∀ (s : Nat) (a b : RedoxHandle),
        RedoxHandle.beq a b = true → a.hashFields s = b.hashFields s)
    ∧ (∀ (s : Nat) (a b : XlibHandle),
        XlibHandle.beq a b = true → a.hashFields s = b.hashFields s)
    ∧ (∀ (s : Nat) (a b : XcbHandle),
        XcbHandle.beq a b = true → a.hashFields s = b.hashFields s)
    ∧ (∀ (s : Nat) (a b : WaylandHandle),
        WaylandHandle.beq a b = true → a.hashFields s = b.hashFields s)
    ∧ (∀ (s : Nat) (a b : WindowsHandle),
        WindowsHandle.beq a b = true → a.hashFields s = b.hashFields s)
    ∧ (∀ (s : Nat) (a b : WinRTHandle),
        WinRTHandle.beq a b = true → a.hashFields s = b.hashFields s)
    ∧ (∀ (s : Nat) (a b : WebHandle),
        WebHandle.beq a b = true → a.hashFields s = b.hashFields s)
    ∧ (∀ (s : Nat) (a b : AndroidHandle),
        AndroidHandle.beq a b = true → a.hashFields s = b.hashFields s) := by
  refine ⟨?_, ?_, ?_, ?_, ?_, ?_, ?_, ?_, ?_, ?_, ?_⟩
  · intro x y h
    rw [(RawWindowHandle.beq_eq_true_iff x y).1 h]
  · intro s a b h
    rw [(ios_beq_iff a b).1 h]
  · intro s a b h
    rw [(macos_beq_iff a b).1 h]
  · intro s a b h
    rw [(redox_beq_iff a b).1 h]
  · intro s a b h
    rw [(xlib_beq_iff a b).1 h]
  · intro s a b h
    rw [(xcb_beq_iff a b).1 h]
  · intro s a b h
    rw [(wayland_beq_iff a b).1 h]
  · intro s a b h
    rw [(windows_beq_iff a b).1 h]
  · intro s a b h
    rw [(winrt_beq_iff a b).1 h]
  · intro s a b h
    rw [(web_beq_iff a b).1 h]
  · intro s a b h
    rw [(android_beq_iff a b).1 h]

/-- Witness for C3: two equal `Wayland` union values hash identically. -/
theorem hash_consistent_with_eq_witness :
    RawWindowHandle.hashValue (.Wayland { surface := 4, display := 9 }) =
      RawWindowHandle.hashValue (.Wayland { surface := 4, display := 9 }) :=
  hash_consistent_with_eq.1 _ _ (by decide)

/-- C4: for every supported platform payload variant, the `empty` builder
yields the zero/null sentinel in every field. -/
theorem empty_builders_all_zero :
    IOSHandle.empty.ui_window = 0 ∧ IOSHandle.empty.ui_view = 0
    ∧ MacOSHandle.empty.ns_window = 0 ∧ MacOSHandle.empty.ns_view = 0
    ∧ RedoxHandle.empty.window = 0
    ∧ XlibHandle.empty.window = 0 ∧ XlibHandle.empty.display = 0
    ∧ XcbHandle.empty.window = 0 ∧ XcbHandle.empty.connection = 0
    ∧ WaylandHandle.empty.surface = 0 ∧ WaylandHandle.empty.display = 0
    ∧ WindowsHandle.empty.hwnd = 0 ∧ WindowsHandle.empty.hinstance = 0
    ∧ WinRTHandle.empty.core_window = 0
    ∧ WebHandle.empty.id = 0
    ∧ AndroidHandle.empty.a_native_window = 0 := by
  decide

/-- C5: the accessor is a pure observer — calling it leaves the wrapper's
stored handle (its whole state) unchanged, and a repeated call on the
resulting post-state returns the identical handle value. -/
theorem accessor_pure_observer (t : TrustedWindowHandle) :
    (t.raw_window_handle).2 = t
    ∧ (t.raw_window_handle).1 = (((t.raw_window_handle).2).raw_window_handle).1 :=
  ⟨rfl, rfl⟩

/-- C6: the wrapper is immutable after construction and holds no state beyond
the wrapped value — every wrapper is exactly the trusted constructor applied
to its stored handle, and two wrappers with equal stored handles are equal. -/
theorem trusted_wrapper_state (t : TrustedWindowHandle) :
    t = TrustedWindowHandle.new t.raw
    ∧ ∀ t' : TrustedWindowHandle, t.raw = t'.raw → t = t' := by
  constructor
  · cases t
    rfl
  · intro t' h
    cases t
    cases t'
    simpa using h

/-- Witness for C6: at a concrete wrapper, equality of stored handles forces
equality of the wrappers. -/
theorem trusted_wrapper_state_witness :
    TrustedWindowHandle.new (.Web { id := 7 }) = TrustedWindowHandle.new (.Web { id := 7 }) :=
  (trusted_wrapper_state (TrustedWindowHandle.new (.Web { id := 7 }))).2 _ rfl

/-- C7: no fallible operations and no validation at this layer — for every
input value, the trusted constructor produces a wrapper and the accessor
produces its result, with no precondition, no check and no error. -/
theorem operations_total_infallible (x : RawWindowHandle) :
    ∃ t : TrustedWindowHandle, TrustedWindowHandle.new x = t
      ∧ t.raw_window_handle = (x, t) :=
  ⟨TrustedWindowHandle.new x, rfl, rfl⟩

/-- C8: the union is a pure value type carrying exactly one payload by value —
copying/cloning a union value keeps its variant tag and every payload field,
yielding a value equal to the original (also under the derived equality). -/
theorem union_copy_eq (x : RawWindowHandle) :
    RawWindowHandle.clone x = x
    ∧ RawWindowHandle.beq (RawWindowHandle.clone x) x = true := by
  have h : RawWindowHandle.clone x = x := by
    cases x <;> rfl
  exact ⟨h, (RawWindowHandle.beq_eq_true_iff _ _).2 (by rw [h])⟩

/-- C10: the accessor's result depends only on the value passed at
construction — wrappers built from equal handle values return equal results
on every accessor call. -/
theorem accessor_deterministic (x y : RawWindowHandle)
    (h : RawWindowHandle.beq x y = true) :
    ((TrustedWindowHandle.new x).raw_window_handle).1 =
      ((TrustedWindowHandle.new y).raw_window_handle).1 := by
  have hxy := (RawWindowHandle.beq_eq_true_iff x y).1 h
  simp [TrustedWindowHandle.new, TrustedWindowHandle.raw_window_handle, hxy]

/-- Witness for C10: two wrappers built from the same concrete handle value
return equal accessor results. -/
theorem accessor_deterministic_witness :
    ((TrustedWindowHandle.new (.Redox { window := 5 })).raw_window_handle).1 =
      ((TrustedWindowHandle.new (.Redox { window := 5 })).raw_window_handle).1 :=
  accessor_deterministic _ _ (by decide)
